import Mathlib

/-!
Verification of the authentication core of the Local-Events backend:
the password hashing service (`PasswordService` in the source), the JWT
token codec (`JWTService`), and the in-memory revocation registry
(`TokenBlacklistService`), together with the refresh route handler.

The embedding is shallow: the TypeScript functions are translated into
Lean functions over explicit state.  Runtime randomness (the 16-byte
salt) and the wall clock (`now`) are passed as explicit arguments.  The
platform primitives `btoa` / `atob` are modelled by an executable base64
codec over byte lists, and the Web Crypto PBKDF2 derivation is modelled
by an abstract key-derivation function bundled with the two facts the
code relies on (the derived key is exactly 32 bytes of values < 256).
-/


set_option maxHeartbeats 1000000

/-! ## Definitions: the shallow embedding of the authentication core -/

/-- The standard base64 alphabet used by `btoa` / `atob`. -/
def b64Table : List Char :=
  ['A','B','C','D','E','F','G','H','I','J','K','L','M',
   'N','O','P','Q','R','S','T','U','V','W','X','Y','Z',
   'a','b','c','d','e','f','g','h','i','j','k','l','m',
   'n','o','p','q','r','s','t','u','v','w','x','y','z',
   '0','1','2','3','4','5','6','7','8','9','+','/']

/-- Character for a 6-bit group. -/
def b64Char (n : Nat) : Char := b64Table.getD n 'A'

/-- Position of a character in the base64 alphabet; `none` for characters
outside the alphabet (which make `atob` throw). -/
def b64Index (c : Char) : Option Nat := b64Table.findIdx? (fun d => d == c)

/-- Base64 encoding of a byte list, as performed by `btoa` on the binary
string built with `String.fromCharCode` in `hashPassword`. -/
def btoaBytes : List Nat → List Char
  | [] => []
  | [b1] => [b64Char (b1 / 4), b64Char (b1 % 4 * 16), '=', '=']
  | [b1, b2] =>
    [b64Char (b1 / 4), b64Char (b1 % 4 * 16 + b2 / 16), b64Char (b2 % 16 * 4), '=']
  | b1 :: b2 :: b3 :: rest =>
    b64Char (b1 / 4) :: b64Char (b1 % 4 * 16 + b2 / 16) ::
      b64Char (b2 % 16 * 4 + b3 / 64) :: b64Char (b3 % 64) :: btoaBytes rest

/-- `btoa` as used in `hashPassword`: bytes in, base64 string out. -/
def btoa (l : List Nat) : String := String.mk (btoaBytes l)

/-- Base64 decoding of a character list, as performed by
`atob(hash).split("").map(c => c.charCodeAt(0))` in `verifyPassword`.
`none` models the `InvalidCharacterError` that `atob` throws on input
that is not canonical base64. -/
def atobChars : List Char → Option (List Nat)
  | [] => some []
  | c1 :: c2 :: c3 :: c4 :: rest =>
    if c3 = '=' then
      if c4 = '=' ∧ rest = [] then
        (b64Index c1).bind fun n1 => (b64Index c2).map fun n2 =>
          [n1 * 4 + n2 / 16]
      else none
    else if c4 = '=' then
      if rest = [] then
        (b64Index c1).bind fun n1 => (b64Index c2).bind fun n2 =>
          (b64Index c3).map fun n3 =>
            [n1 * 4 + n2 / 16, n2 % 16 * 16 + n3 / 4]
      else none
    else
      (b64Index c1).bind fun n1 => (b64Index c2).bind fun n2 =>
        (b64Index c3).bind fun n3 => (b64Index c4).bind fun n4 =>
          (atobChars rest).map fun bs =>
            (n1 * 4 + n2 / 16) :: (n2 % 16 * 16 + n3 / 4) :: (n3 % 4 * 64 + n4) :: bs
  | _ => none

/-- Abstract model of the Web Crypto PBKDF2-HMAC-SHA256 derivation used by
`PasswordService` (`crypto.subtle.deriveBits` with 100000 iterations and
256 output bits): an arbitrary function from password and salt bytes to a
32-byte derived key.  The two bundled facts are exactly what the call
site guarantees: `deriveBits(… , 256)` yields 32 bytes, each < 256. -/
structure KDF where
  derive : String → List Nat → List Nat
  derive_len : ∀ p s, (derive p s).length = 32
  derive_lt : ∀ p s, ∀ b ∈ derive p s, b < 256

/-- A concrete key-derivation function used to instantiate closed examples. -/
def kdf0 : KDF where
  derive := fun _ _ => List.replicate 32 0
  derive_len := fun _ _ => by simp
  derive_lt := fun _ _ b hb => by
    rw [List.eq_of_mem_replicate hb]
    omega

/-- `PasswordService.hashPassword`, with the random 16-byte salt made an
explicit argument: concatenates `salt || derivedKey` and base64-encodes. -/
def hashPassword (K : KDF) (salt : List Nat) (password : String) : String :=
  btoa (salt ++ K.derive password salt)

/-- Byte-by-byte comparison loop of `verifyPassword` (`for i …; if
storedHash[i] !== newHash[i] return false; … return true`). -/
def cmpBytes : List Nat → List Nat → Bool
  | [], _ => true
  | _ :: _, [] => true
  | a :: as, b :: bs => if a = b then cmpBytes as bs else false

/-- The `try` block of `PasswordService.verifyPassword`: decode the stored
hash (`atob` may throw, modelled as `Except.error`), split into salt and
stored key, re-derive, compare lengths then bytes. -/
def verifyPasswordTry (K : KDF) (password hash : String) : Except String Bool :=
  match atobChars hash.data with
  | none => Except.error "InvalidCharacterError"
  | some combined =>
    let salt := combined.take 16
    let storedHash := combined.drop 16
    let newHash := K.derive password salt
    if storedHash.length ≠ newHash.length then Except.ok false
    else Except.ok (cmpBytes storedHash newHash)

/-- `PasswordService.verifyPassword`: the `try` block wrapped in the
`catch` that turns any thrown error into the return value `false`.  The
`Except` result type records whether an exception escapes to the caller. -/
def verifyPassword (K : KDF) (password hash : String) : Except String Bool :=
  match verifyPasswordTry K password hash with
  | Except.ok b => Except.ok b
  | Except.error _ => Except.ok false

/-- The claims and signing key of a token produced by `SignJWT…sign(secret)`. -/
structure SignedToken where
  userId : String
  email : String
  username : Option String
  type : String
  iat : Nat
  exp : Nat
  iss : String
  aud : String
  secret : Nat
deriving DecidableEq

/-- A bearer-token string: either (the parse of) a well-formed signed JWS,
or an arbitrary non-token string presented by a client. -/
inductive Token where
  | signed (s : SignedToken)
  | garbage (raw : String)
deriving DecidableEq

/-- The payload type returned by the verification paths
(`JWTPayload` in the source, with the `type` claim kept as a string). -/
structure JWTPayload where
  userId : String
  email : String
  username : Option String
  type : String
deriving DecidableEq

/-- `Omit<JWTPayload, "type">`: the claims passed to the issuance paths. -/
structure TokenClaims where
  userId : String
  email : String
  username : Option String
deriving DecidableEq

/-- The access-token signing key `JWT_SECRET` (a distinct configured value). -/
def JWT_SECRET : Nat := 0

/-- The refresh-token signing key `REFRESH_SECRET` (distinct from `JWT_SECRET`,
as the two default configuration strings are). -/
def REFRESH_SECRET : Nat := 1

def payloadOf (s : SignedToken) : JWTPayload :=
  ⟨s.userId, s.email, s.username, s.type⟩

/-- `jose`'s `jwtVerify(token, secret, { issuer, audience })`: signature
check against the supplied key, then issuer, audience and expiry checks,
each failure raising a distinct internal error. -/
def jwtVerify (t : Token) (secret : Nat) (now : Nat) : Except String JWTPayload :=
  match t with
  | Token.garbage _ => Except.error "JWSInvalid"
  | Token.signed s =>
    if s.secret ≠ secret then Except.error "JWSSignatureVerificationFailed"
    else if s.iss ≠ "localeve-api" then Except.error "JWTClaimValidationFailed iss"
    else if s.aud ≠ "localeve-users" then Except.error "JWTClaimValidationFailed aud"
    else if s.exp ≤ now then Except.error "JWTExpired"
    else Except.ok (payloadOf s)

/-- `JWTService.generateAccessToken`: type `access`, 15-minute expiry,
fixed issuer and audience, signed with `JWT_SECRET`. -/
def generateAccessToken (c : TokenClaims) (now : Nat) : Token :=
  Token.signed
    ⟨c.userId, c.email, c.username, "access", now, now + 15 * 60,
      "localeve-api", "localeve-users", JWT_SECRET⟩

/-- `JWTService.generateRefreshToken`: type `refresh`, 7-day expiry,
fixed issuer and audience, signed with `REFRESH_SECRET`. -/
def generateRefreshToken (c : TokenClaims) (now : Nat) : Token :=
  Token.signed
    ⟨c.userId, c.email, c.username, "refresh", now, now + 7 * 24 * 60 * 60,
      "localeve-api", "localeve-users", REFRESH_SECRET⟩

/-- The module-level state of `tokenBlacklist.ts`: the blacklist
(`Set<string>`, modelled by its membership function) and the
user-to-active-tokens index (`Map<string, Set<string>>`, modelled as a
partial map to the list of tracked tokens). -/
structure RegistryState where
  blacklistedTokens : Token → Bool
  userTokens : String → Option (List Token)

/-- The state at module load: both stores empty. -/
def emptyRegistry : RegistryState := ⟨fun _ => false, fun _ => none⟩

/-- `TokenBlacklistService.blacklistToken`: `blacklistedTokens.add(token)`. -/
def blacklistToken (st : RegistryState) (t : Token) : RegistryState :=
  { st with blacklistedTokens := fun t' => if t' = t then true else st.blacklistedTokens t' }

/-- `TokenBlacklistService.isTokenBlacklisted`. -/
def isTokenBlacklisted (st : RegistryState) (t : Token) : Bool :=
  st.blacklistedTokens t

/-- `TokenBlacklistService.addUserToken`: create the user's set if absent,
then add the token to it. -/
def addUserToken (st : RegistryState) (u : String) (t : Token) : RegistryState :=
  let ts := (st.userTokens u).getD []
  { st with
    userTokens := fun u' =>
      if u' = u then some (if t ∈ ts then ts else ts ++ [t]) else st.userTokens u' }

/-- `TokenBlacklistService.removeUserToken`: delete the token from the
user's set if present, and garbage-collect the entry when it empties. -/
def removeUserToken (st : RegistryState) (u : String) (t : Token) : RegistryState :=
  match st.userTokens u with
  | none => st
  | some ts =>
    let ts' := ts.filter fun x => x != t
    { st with
      userTokens := fun u' =>
        if u' = u then (if ts'.length = 0 then none else some ts') else st.userTokens u' }

/-- `TokenBlacklistService.blacklistAllUserTokens`: blacklist every token
tracked for the user, then drop the user's entry. -/
def blacklistAllUserTokens (st : RegistryState) (u : String) : RegistryState :=
  match st.userTokens u with
  | none => st
  | some ts =>
    let st' := ts.foldl (fun s t => blacklistToken s t) st
    { st' with
      userTokens := fun u' => if u' = u then none else st'.userTokens u' }

/-- `TokenBlacklistService.blacklistUserTokens`: blacklist the access token
and the optional refresh token, then remove both from the user's set. -/
def blacklistUserTokens (st : RegistryState) (u : String) (a : Token)
    (r : Option Token) : RegistryState :=
  let st1 := blacklistToken st a
  let st2 := match r with
    | some rt => blacklistToken st1 rt
    | none => st1
  let st3 := removeUserToken st2 u a
  match r with
  | some rt => removeUserToken st3 u rt
  | none => st3

/-- The `try` block of `JWTService.verifyAccessToken`: blacklist check
first, then `jwtVerify` with `JWT_SECRET`, then the `type` claim check. -/
def verifyAccessTokenTry (st : RegistryState) (t : Token) (now : Nat) :
    Except String JWTPayload :=
  if isTokenBlacklisted st t then Except.error "Token has been invalidated"
  else
    match jwtVerify t JWT_SECRET now with
    | Except.error e => Except.error e
    | Except.ok p =>
      if p.type ≠ "access" then Except.error "Invalid token type"
      else Except.ok p

/-- `JWTService.verifyAccessToken`: any failure of the `try` block is
caught and re-thrown as the single generic error. -/
def verifyAccessToken (st : RegistryState) (t : Token) (now : Nat) :
    Except String JWTPayload :=
  match verifyAccessTokenTry st t now with
  | Except.ok p => Except.ok p
  | Except.error _ => Except.error "Invalid or expired access token"

/-- The `try` block of `JWTService.verifyRefreshToken`: blacklist check
first, then `jwtVerify` with `REFRESH_SECRET`, then the `type` check. -/
def verifyRefreshTokenTry (st : RegistryState) (t : Token) (now : Nat) :
    Except String JWTPayload :=
  if isTokenBlacklisted st t then Except.error "Token has been invalidated"
  else
    match jwtVerify t REFRESH_SECRET now with
    | Except.error e => Except.error e
    | Except.ok p =>
      if p.type ≠ "refresh" then Except.error "Invalid token type"
      else Except.ok p

/-- `JWTService.verifyRefreshToken` with its uniform catch. -/
def verifyRefreshToken (st : RegistryState) (t : Token) (now : Nat) :
    Except String JWTPayload :=
  match verifyRefreshTokenTry st t now with
  | Except.ok p => Except.ok p
  | Except.error _ => Except.error "Invalid or expired refresh token"

/-- The result record of `JWTService.generateTokenPair`. -/
structure TokenPair where
  accessToken : Token
  refreshToken : Token
  tokenType : String
  expiresIn : Nat
deriving DecidableEq

/-- `JWTService.generateTokenPair`: issue both tokens, register each with
`addUserToken` under the claims' user id, and return the pair record. -/
def generateTokenPair (st : RegistryState) (c : TokenClaims) (now : Nat) :
    RegistryState × TokenPair :=
  let a := generateAccessToken c now
  let r := generateRefreshToken c now
  let st1 := addUserToken st c.userId a
  let st2 := addUserToken st1 c.userId r
  (st2, ⟨a, r, "Bearer", 900⟩)

/-- The `POST /auth/refresh` handler: `verifyRefreshToken`, then on success
`generateTokenPair` on the verified payload's claims; any failure is the
route's generic 401 error. -/
def refreshRoute (st : RegistryState) (rt : Token) (now : Nat) :
    RegistryState × Except String TokenPair :=
  match verifyRefreshToken st rt now with
  | Except.error _ => (st, Except.error "Invalid or expired refresh token")
  | Except.ok p =>
    let res := generateTokenPair st ⟨p.userId, p.email, p.username⟩ now
    (res.1, Except.ok res.2)

/-- Fixed example claims used by the concrete instantiations below. -/
def c0 : TokenClaims := ⟨"u1", "a@b.com", none⟩

/-- The access token issued at time 0 for the example claims. -/
def tAcc : Token := generateAccessToken c0 0

/-- The refresh token issued at time 0 for the example claims. -/
def tRef : Token := generateRefreshToken c0 0

/-- A signed token with the `refresh` type claim, access-secret signed,
otherwise well-formed. -/
def sTypeRef : SignedToken :=
  ⟨"u1", "a@b.com", none, "refresh", 0, 900, "localeve-api", "localeve-users", 0⟩

/-- The tokens left in a user's set after `blacklistUserTokens` removes the
access token and the optional refresh token (two sequential `Set.delete`s). -/
def rmTokens (ts : List Token) (a : Token) (r : Option Token) : List Token :=
  (ts.filter fun x => x != a).filter fun x =>
    match r with
    | none => true
    | some rt => x != rt

/-- A second-session access token for the same user (later issue time). -/
def tAcc2 : Token := generateAccessToken c0 1

/-- A registry tracking three active tokens for user u1: the first
session's pair and a second session's access token. -/
def stTwoSessions : RegistryState :=
  addUserToken (addUserToken (addUserToken emptyRegistry "u1" tAcc) "u1" tRef) "u1" tAcc2

/-- A garbage token string tracked for two different users at once. -/
def tShared : Token := Token.garbage "shared-token"

/-- A registry in which the same token string is tracked for u1 and u2. -/
def stShared : RegistryState :=
  addUserToken (addUserToken emptyRegistry "u1" tShared) "u2" tShared

/-- A garbage token tracked and then blacklisted without removal. -/
def tG : Token := Token.garbage "tok"

/-- Reachable from empty via `addUserToken` then `blacklistToken`. -/
def stBad : RegistryState := blacklistToken (addUserToken emptyRegistry "u1" tG) tG

/-- The user a signed token was issued to; garbage strings have no owner. -/
def tokenOwner : Token → Option String
  | Token.signed s => some s.userId
  | Token.garbage _ => none

/-- Registry states reachable from the empty registry through the façade's
actual call pattern: `generateTokenPair` issuing tokens that are not
currently blacklisted (fresh issuance), `blacklistUserTokens` applied to
the calling user's own tokens (as the logout route does, taking the user
id from the verified token itself), and `blacklistAllUserTokens`. -/
inductive SafeReachable : RegistryState → Prop where
  | empty : SafeReachable emptyRegistry
  | pair (st : RegistryState) (c : TokenClaims) (now : Nat) (h : SafeReachable st)
      (ha : isTokenBlacklisted st (generateAccessToken c now) = false)
      (hr : isTokenBlacklisted st (generateRefreshToken c now) = false) :
      SafeReachable (generateTokenPair st c now).1
  | logout (st : RegistryState) (u : String) (a : Token) (r : Option Token)
      (h : SafeReachable st) (hoa : tokenOwner a = some u)
      (hor : ∀ rt, r = some rt → tokenOwner rt = some u) :
      SafeReachable (blacklistUserTokens st u a r)
  | logoutAll (st : RegistryState) (u : String) (h : SafeReachable st) :
      SafeReachable (blacklistAllUserTokens st u)

/-- The all-zero salt and a distinct salt, both 16 bytes. -/
def salt0 : List Nat := List.replicate 16 0

/-- A 16-byte salt differing from `salt0` in its first byte. -/
def salt1 : List Nat := 1 :: List.replicate 15 0

/-! ## Theorems -/

theorem b64Index_b64Char : ∀ n, n < 64 → b64Index (b64Char n) = some n := by decide

theorem b64Char_ne_pad : ∀ n, n < 64 → b64Char n ≠ '=' := by decide

/-- Decoding inverts encoding on full 3-byte groups of genuine bytes,
which covers the 48-byte salt-plus-key blobs produced by `hashPassword`. -/
theorem atobChars_btoaBytes : ∀ (l : List Nat), (∀ b ∈ l, b < 256) →
    l.length % 3 = 0 → atobChars (btoaBytes l) = some l
  | [], _, _ => by simp [btoaBytes, atobChars]
  | [b1], _, hl => by simp at hl
  | [b1, b2], _, hl => by simp at hl
  | b1 :: b2 :: b3 :: rest, hb, hl => by
    have h1 : b1 < 256 := hb b1 (by simp)
    have h2 : b2 < 256 := hb b2 (by simp)
    have h3 : b3 < 256 := hb b3 (by simp)
    have hrest : atobChars (btoaBytes rest) = some rest := by
      refine atobChars_btoaBytes rest (fun b hm => hb b (by simp [hm]) ) ?_
      simp only [List.length_cons] at hl
      omega
    simp only [btoaBytes, atobChars]
    rw [if_neg (b64Char_ne_pad _ (by omega)), if_neg (b64Char_ne_pad _ (by omega))]
    rw [b64Index_b64Char _ (by omega), b64Index_b64Char _ (by omega),
      b64Index_b64Char _ (by omega), b64Index_b64Char _ (by omega), hrest]
    simp only [Option.bind_eq_bind, Option.some_bind, Option.map_some',
      Option.some.injEq, List.cons.injEq]
    refine ⟨by omega, by omega, by omega, trivial⟩

theorem cmpBytes_refl : ∀ l : List Nat, cmpBytes l l = true
  | [] => rfl
  | a :: as => by simp [cmpBytes, cmpBytes_refl as]

theorem blacklistToken_userTokens (st : RegistryState) (t : Token) :
    (blacklistToken st t).userTokens = st.userTokens := rfl

theorem blacklistToken_blacklisted (st : RegistryState) (t t' : Token) :
    (blacklistToken st t).blacklistedTokens t' =
      if t' = t then true else st.blacklistedTokens t' := rfl

theorem addUserToken_blacklisted (st : RegistryState) (u : String) (t : Token) :
    (addUserToken st u t).blacklistedTokens = st.blacklistedTokens := rfl

theorem addUserToken_lookup (st : RegistryState) (u : String) (t : Token) (u' : String) :
    (addUserToken st u t).userTokens u' =
      if u' = u then
        some (if t ∈ (st.userTokens u).getD [] then (st.userTokens u).getD []
              else (st.userTokens u).getD [] ++ [t])
      else st.userTokens u' := rfl

theorem removeUserToken_blacklisted (st : RegistryState) (u : String) (t : Token) :
    (removeUserToken st u t).blacklistedTokens = st.blacklistedTokens := by
  unfold removeUserToken
  split <;> rfl

theorem removeUserToken_lookup_other (st : RegistryState) (u : String) (t : Token)
    (u' : String) (h : u' ≠ u) :
    (removeUserToken st u t).userTokens u' = st.userTokens u' := by
  unfold removeUserToken
  split
  · rfl
  · simp [h]

theorem removeUserToken_lookup_none (st : RegistryState) (u : String) (t : Token)
    (h : st.userTokens u = none) : removeUserToken st u t = st := by
  unfold removeUserToken
  rw [h]

theorem removeUserToken_lookup_self (st : RegistryState) (u : String) (t : Token)
    (ts : List Token) (h : st.userTokens u = some ts) :
    (removeUserToken st u t).userTokens u =
      (if (ts.filter fun x => x != t).length = 0 then none
       else some (ts.filter fun x => x != t)) := by
  unfold removeUserToken
  rw [h]
  simp

theorem foldl_blacklistToken_userTokens : ∀ (ts : List Token) (st : RegistryState),
    (ts.foldl (fun s t => blacklistToken s t) st).userTokens = st.userTokens
  | [], _ => rfl
  | t :: ts, st => by
    simp only [List.foldl_cons]
    rw [foldl_blacklistToken_userTokens ts]
    rfl

theorem foldl_blacklistToken_blacklisted : ∀ (ts : List Token) (st : RegistryState) (t' : Token),
    (ts.foldl (fun s t => blacklistToken s t) st).blacklistedTokens t' =
      if t' ∈ ts then true else st.blacklistedTokens t'
  | [], _, _ => by simp
  | t :: ts, st, t' => by
    simp only [List.foldl_cons]
    rw [foldl_blacklistToken_blacklisted ts]
    by_cases h1 : t' ∈ ts <;> by_cases h2 : t' = t <;>
      simp [h1, h2, blacklistToken_blacklisted]

theorem blacklistAllUserTokens_blacklisted (st : RegistryState) (u : String) (t' : Token) :
    (blacklistAllUserTokens st u).blacklistedTokens t' =
      match st.userTokens u with
      | none => st.blacklistedTokens t'
      | some ts => if t' ∈ ts then true else st.blacklistedTokens t' := by
  unfold blacklistAllUserTokens
  cases h : st.userTokens u
  · rfl
  · simp [foldl_blacklistToken_blacklisted]

theorem blacklistAllUserTokens_lookup_self (st : RegistryState) (u : String) :
    (blacklistAllUserTokens st u).userTokens u = none := by
  unfold blacklistAllUserTokens
  cases h : st.userTokens u
  · exact h
  · simp

theorem blacklistAllUserTokens_lookup_other (st : RegistryState) (u u' : String)
    (h : u' ≠ u) :
    (blacklistAllUserTokens st u).userTokens u' = st.userTokens u' := by
  unfold blacklistAllUserTokens
  cases hu : st.userTokens u
  · rfl
  · simp [h, foldl_blacklistToken_userTokens]

theorem blacklistUserTokens_blacklisted (st : RegistryState) (u : String) (a : Token)
    (r : Option Token) (t' : Token) :
    (blacklistUserTokens st u a r).blacklistedTokens t' =
      if t' = a ∨ r = some t' then true else st.blacklistedTokens t' := by
  cases r with
  | none =>
    simp only [blacklistUserTokens, removeUserToken_blacklisted, blacklistToken_blacklisted]
    by_cases h : t' = a <;> simp [h]
  | some rt =>
    simp only [blacklistUserTokens, removeUserToken_blacklisted, blacklistToken_blacklisted]
    by_cases h1 : t' = rt <;> by_cases h2 : t' = a <;> simp [h1, h2, eq_comm]

theorem blacklistUserTokens_lookup_other (st : RegistryState) (u : String) (a : Token)
    (r : Option Token) (u' : String) (h : u' ≠ u) :
    (blacklistUserTokens st u a r).userTokens u' = st.userTokens u' := by
  cases r with
  | none =>
    simp only [blacklistUserTokens]
    rw [removeUserToken_lookup_other _ _ _ _ h]
    rfl
  | some rt =>
    simp only [blacklistUserTokens]
    rw [removeUserToken_lookup_other _ _ _ _ h, removeUserToken_lookup_other _ _ _ _ h]
    rfl

theorem jwtVerify_ok (t : Token) (secret now : Nat) (p : JWTPayload)
    (h : jwtVerify t secret now = Except.ok p) :
    ∃ s, t = Token.signed s ∧ p = payloadOf s ∧ s.secret = secret ∧
      s.iss = "localeve-api" ∧ s.aud = "localeve-users" ∧ now < s.exp := by
  unfold jwtVerify at h
  cases t with
  | garbage raw => cases h
  | signed s =>
    refine ⟨s, rfl, ?_⟩
    by_cases h1 : s.secret = secret
    · by_cases h2 : s.iss = "localeve-api"
      · by_cases h3 : s.aud = "localeve-users"
        · by_cases h4 : s.exp ≤ now
          · simp [h1, h2, h3, h4] at h
          · simp [h1, h2, h3, h4] at h
            exact ⟨h.symm, h1, h2, h3, by omega⟩
        · simp [h1, h2, h3] at h
      · simp [h1, h2] at h
    · simp [h1] at h

theorem verifyAccessTokenTry_ok (st : RegistryState) (t : Token) (now : Nat)
    (p : JWTPayload) (h : verifyAccessTokenTry st t now = Except.ok p) :
    isTokenBlacklisted st t = false ∧ jwtVerify t JWT_SECRET now = Except.ok p ∧
      p.type = "access" := by
  unfold verifyAccessTokenTry at h
  by_cases hb : isTokenBlacklisted st t = true
  · rw [if_pos hb] at h
    cases h
  · rw [if_neg hb] at h
    refine ⟨by simpa using hb, ?_⟩
    cases hjw : jwtVerify t JWT_SECRET now with
    | error e => rw [hjw] at h; cases h
    | ok q =>
      rw [hjw] at h
      by_cases ht : q.type = "access"
      · simp [ht] at h
        subst h
        exact ⟨rfl, ht⟩
      · simp [ht] at h

theorem verifyRefreshTokenTry_ok (st : RegistryState) (t : Token) (now : Nat)
    (p : JWTPayload) (h : verifyRefreshTokenTry st t now = Except.ok p) :
    isTokenBlacklisted st t = false ∧ jwtVerify t REFRESH_SECRET now = Except.ok p ∧
      p.type = "refresh" := by
  unfold verifyRefreshTokenTry at h
  by_cases hb : isTokenBlacklisted st t = true
  · rw [if_pos hb] at h
    cases h
  · rw [if_neg hb] at h
    refine ⟨by simpa using hb, ?_⟩
    cases hjw : jwtVerify t REFRESH_SECRET now with
    | error e => rw [hjw] at h; cases h
    | ok q =>
      rw [hjw] at h
      by_cases ht : q.type = "refresh"
      · simp [ht] at h
        subst h
        exact ⟨rfl, ht⟩
      · simp [ht] at h

theorem verifyAccessToken_ok_iff (st : RegistryState) (t : Token) (now : Nat)
    (p : JWTPayload) :
    verifyAccessToken st t now = Except.ok p ↔ verifyAccessTokenTry st t now = Except.ok p := by
  unfold verifyAccessToken
  cases verifyAccessTokenTry st t now <;> simp

theorem verifyRefreshToken_ok_iff (st : RegistryState) (t : Token) (now : Nat)
    (p : JWTPayload) :
    verifyRefreshToken st t now = Except.ok p ↔ verifyRefreshTokenTry st t now = Except.ok p := by
  unfold verifyRefreshToken
  cases verifyRefreshTokenTry st t now <;> simp

theorem verifyAccessToken_shape (st : RegistryState) (t : Token) (now : Nat) :
    (∃ p, verifyAccessToken st t now = Except.ok p) ∨
      verifyAccessToken st t now = Except.error "Invalid or expired access token" := by
  unfold verifyAccessToken
  cases verifyAccessTokenTry st t now with
  | ok p => exact Or.inl ⟨p, rfl⟩
  | error e => exact Or.inr rfl

theorem verifyRefreshToken_shape (st : RegistryState) (t : Token) (now : Nat) :
    (∃ p, verifyRefreshToken st t now = Except.ok p) ∨
      verifyRefreshToken st t now = Except.error "Invalid or expired refresh token" := by
  unfold verifyRefreshToken
  cases verifyRefreshTokenTry st t now with
  | ok p => exact Or.inl ⟨p, rfl⟩
  | error e => exact Or.inr rfl

theorem verifyAccessToken_blacklisted_fails (st : RegistryState) (t : Token) (now : Nat)
    (h : isTokenBlacklisted st t = true) :
    verifyAccessToken st t now = Except.error "Invalid or expired access token" := by
  unfold verifyAccessToken verifyAccessTokenTry
  rw [if_pos h]

theorem verifyRefreshToken_congr (st1 st2 : RegistryState) (t : Token) (now : Nat)
    (h : st1.blacklistedTokens t = st2.blacklistedTokens t) :
    verifyRefreshToken st1 t now = verifyRefreshToken st2 t now := by
  unfold verifyRefreshToken verifyRefreshTokenTry isTokenBlacklisted
  rw [h]

theorem verifyAccessToken_congr (st1 st2 : RegistryState) (t : Token) (now : Nat)
    (h : st1.blacklistedTokens t = st2.blacklistedTokens t) :
    verifyAccessToken st1 t now = verifyAccessToken st2 t now := by
  unfold verifyAccessToken verifyAccessTokenTry isTokenBlacklisted
  rw [h]

/-- C1: every token added to the blacklist — via `blacklistToken`,
`blacklistUserTokens`, or `blacklistAllUserTokens` — fails
`verifyAccessToken` with the generic error, for every token whatsoever
(in particular one with a valid signature, correct issuer/audience and
type, and an unexpired expiry): the blacklist membership test alone
decides the failure, before any cryptographic verification is consulted. -/
theorem blacklisted_token_never_verifies (st : RegistryState) (u : String) (t : Token)
    (r : Option Token) (now : Nat) :
    (isTokenBlacklisted st t = true →
      verifyAccessToken st t now = Except.error "Invalid or expired access token")
    ∧ verifyAccessToken (blacklistToken st t) t now =
        Except.error "Invalid or expired access token"
    ∧ verifyAccessToken (blacklistUserTokens st u t r) t now =
        Except.error "Invalid or expired access token"
    ∧ (∀ ts, st.userTokens u = some ts → t ∈ ts →
        verifyAccessToken (blacklistAllUserTokens st u) t now =
          Except.error "Invalid or expired access token") := by
  refine ⟨fun h => verifyAccessToken_blacklisted_fails _ _ _ h, ?_, ?_, ?_⟩
  · apply verifyAccessToken_blacklisted_fails
    simp [isTokenBlacklisted, blacklistToken_blacklisted]
  · apply verifyAccessToken_blacklisted_fails
    simp [isTokenBlacklisted, blacklistUserTokens_blacklisted]
  · intro ts hts hmem
    apply verifyAccessToken_blacklisted_fails
    simp [isTokenBlacklisted, blacklistAllUserTokens_blacklisted, hts, hmem]

/-- Witness for C1: the concrete access token `tAcc` verifies successfully
against the empty registry, and after `blacklistToken` the same token at
the same clock fails with the generic error. -/
theorem blacklisted_token_never_verifies_witness :
    isTokenBlacklisted (blacklistToken emptyRegistry tAcc) tAcc = true
    ∧ verifyAccessToken emptyRegistry tAcc 5 =
        Except.ok ⟨"u1", "a@b.com", none, "access"⟩
    ∧ verifyAccessToken (blacklistToken emptyRegistry tAcc) tAcc 5 =
        Except.error "Invalid or expired access token" :=
  ⟨by decide, by rfl,
    (blacklisted_token_never_verifies (blacklistToken emptyRegistry tAcc) "u1" tAcc
      none 5).1 (by decide)⟩

/-- C5: `verifyAccessToken` either succeeds or fails with the one generic
error value "Invalid or expired access token"; no failure cause — bad
signature, wrong issuer or audience, expiry, wrong type, or blacklist —
is distinguishable at the caller. -/
theorem access_verification_single_error (st : RegistryState) (t : Token) (now : Nat) :
    (∃ p, verifyAccessToken st t now = Except.ok p) ∨
      verifyAccessToken st t now = Except.error "Invalid or expired access token" := by
  unfold verifyAccessToken
  cases verifyAccessTokenTry st t now with
  | ok p => exact Or.inl ⟨p, rfl⟩
  | error e => exact Or.inr rfl

/-- C3: `verifyAccessToken` fails on every signed token whose `type` claim
differs from `access`, and `verifyRefreshToken` on every one whose `type`
differs from `refresh`; in particular each verifier rejects the other
path's issued tokens outright, whatever the registry, clock, and claims. -/
theorem wrong_type_tokens_rejected (st : RegistryState) (s s' : SignedToken)
    (now m : Nat) (c : TokenClaims) :
    (s.type ≠ "access" →
      verifyAccessToken st (Token.signed s) now =
        Except.error "Invalid or expired access token")
    ∧ (s'.type ≠ "refresh" →
      verifyRefreshToken st (Token.signed s') now =
        Except.error "Invalid or expired refresh token")
    ∧ verifyAccessToken st (generateRefreshToken c m) now =
        Except.error "Invalid or expired access token"
    ∧ verifyRefreshToken st (generateAccessToken c m) now =
        Except.error "Invalid or expired refresh token" := by
  refine ⟨?_, ?_, ?_, ?_⟩
  · intro hty
    rcases verifyAccessToken_shape st (Token.signed s) now with ⟨p, hp⟩ | he
    · exfalso
      have htry := (verifyAccessToken_ok_iff st _ now p).mp hp
      obtain ⟨_, hjw, htype⟩ := verifyAccessTokenTry_ok st _ now p htry
      obtain ⟨s0, hs0, hp0, _⟩ := jwtVerify_ok _ _ _ _ hjw
      injection hs0 with hss
      subst hss
      subst hp0
      exact hty htype
    · exact he
  · intro hty
    rcases verifyRefreshToken_shape st (Token.signed s') now with ⟨p, hp⟩ | he
    · exfalso
      have htry := (verifyRefreshToken_ok_iff st _ now p).mp hp
      obtain ⟨_, hjw, htype⟩ := verifyRefreshTokenTry_ok st _ now p htry
      obtain ⟨s0, hs0, hp0, _⟩ := jwtVerify_ok _ _ _ _ hjw
      injection hs0 with hss
      subst hss
      subst hp0
      exact hty htype
    · exact he
  · rcases verifyAccessToken_shape st (generateRefreshToken c m) now with ⟨p, hp⟩ | he
    · exfalso
      have htry := (verifyAccessToken_ok_iff st _ now p).mp hp
      obtain ⟨_, hjw, _⟩ := verifyAccessTokenTry_ok st _ now p htry
      obtain ⟨s0, hs0, _, hsec, _⟩ := jwtVerify_ok _ _ _ _ hjw
      rw [generateRefreshToken] at hs0
      injection hs0 with hss
      rw [← hss] at hsec
      simp [JWT_SECRET, REFRESH_SECRET] at hsec
    · exact he
  · rcases verifyRefreshToken_shape st (generateAccessToken c m) now with ⟨p, hp⟩ | he
    · exfalso
      have htry := (verifyRefreshToken_ok_iff st _ now p).mp hp
      obtain ⟨_, hjw, _⟩ := verifyRefreshTokenTry_ok st _ now p htry
      obtain ⟨s0, hs0, _, hsec, _⟩ := jwtVerify_ok _ _ _ _ hjw
      rw [generateAccessToken] at hs0
      injection hs0 with hss
      rw [← hss] at hsec
      simp [JWT_SECRET, REFRESH_SECRET] at hsec
    · exact he

/-- Witness for C3: the concrete access-secret-signed token carrying the
`refresh` type claim is rejected by `verifyAccessToken` while unexpired. -/
theorem wrong_type_tokens_rejected_witness :
    sTypeRef.type ≠ "access"
    ∧ verifyAccessToken emptyRegistry (Token.signed sTypeRef) 5 =
        Except.error "Invalid or expired access token" :=
  ⟨by decide,
    (wrong_type_tokens_rejected emptyRegistry sTypeRef sTypeRef 5 0 c0).1 (by decide)⟩

/-- C8: the refresh route, on a refresh token that passes
`verifyRefreshToken`, leaves the blacklist pointwise unchanged — in
particular the presented refresh token is not blacklisted by the refresh
— issues the pair built by `generateTokenPair`, and the old refresh token
still verifies successfully afterwards. -/
theorem refresh_keeps_old_refresh_token (st : RegistryState) (rt : Token) (now : Nat)
    (p : JWTPayload) (h : verifyRefreshToken st rt now = Except.ok p) :
    (∀ t', (refreshRoute st rt now).1.blacklistedTokens t' = st.blacklistedTokens t')
    ∧ isTokenBlacklisted (refreshRoute st rt now).1 rt = false
    ∧ verifyRefreshToken (refreshRoute st rt now).1 rt now = Except.ok p
    ∧ (refreshRoute st rt now).2 =
        Except.ok (generateTokenPair st ⟨p.userId, p.email, p.username⟩ now).2 := by
  have hbl : ∀ t', (refreshRoute st rt now).1.blacklistedTokens t' = st.blacklistedTokens t' := by
    intro t'
    unfold refreshRoute
    rw [h]
    rfl
  have hfb : isTokenBlacklisted st rt = false := by
    have htry := (verifyRefreshToken_ok_iff st rt now p).mp h
    exact (verifyRefreshTokenTry_ok st rt now p htry).1
  refine ⟨hbl, ?_, ?_, ?_⟩
  · rw [isTokenBlacklisted, hbl rt]
    exact hfb
  · rw [verifyRefreshToken_congr (refreshRoute st rt now).1 st rt now (hbl rt)]
    exact h
  · unfold refreshRoute
    rw [h]

/-- Witness for C8: refreshing with the concrete refresh token `tRef`
succeeds against the empty registry, and the very same token still
verifies successfully against the post-refresh registry state. -/
theorem refresh_keeps_old_refresh_token_witness :
    verifyRefreshToken emptyRegistry tRef 5 =
        Except.ok ⟨"u1", "a@b.com", none, "refresh"⟩
    ∧ verifyRefreshToken (refreshRoute emptyRegistry tRef 5).1 tRef 5 =
        Except.ok ⟨"u1", "a@b.com", none, "refresh"⟩ :=
  ⟨by rfl,
    (refresh_keeps_old_refresh_token emptyRegistry tRef 5
      ⟨"u1", "a@b.com", none, "refresh"⟩ (by rfl)).2.2.1⟩

theorem mem_rmTokens (ts : List Token) (a : Token) (r : Option Token) (t : Token) :
    t ∈ rmTokens ts a r ↔ t ∈ ts ∧ t ≠ a ∧ r ≠ some t := by
  cases r with
  | none => simp [rmTokens, List.mem_filter, bne_iff_ne]
  | some rt =>
    simp only [rmTokens, List.mem_filter, bne_iff_ne, ne_eq, Option.some.injEq]
    constructor
    · rintro ⟨⟨ht, hta⟩, htr⟩
      exact ⟨ht, hta, fun h => htr h.symm⟩
    · rintro ⟨ht, hta, htr⟩
      exact ⟨⟨ht, hta⟩, fun h => htr h.symm⟩

theorem rmTokens_nil_iff (ts : List Token) (a : Token) (r : Option Token) :
    rmTokens ts a r = [] ↔ ∀ t ∈ ts, t = a ∨ r = some t := by
  have h1 : rmTokens ts a r = [] ↔ ∀ t ∈ ts, ¬(t ≠ a ∧ r ≠ some t) := by
    constructor
    · intro h t ht hcon
      have : t ∈ rmTokens ts a r := (mem_rmTokens ts a r t).mpr ⟨ht, hcon⟩
      rw [h] at this
      cases this
    · intro h
      by_contra hne
      rcases List.exists_mem_of_ne_nil _ hne with ⟨t, ht⟩
      rcases (mem_rmTokens ts a r t).mp ht with ⟨hts, hcon⟩
      exact h t hts hcon
  rw [h1]
  constructor
  · intro h t ht
    by_cases hta : t = a
    · exact Or.inl hta
    · by_cases htr : r = some t
      · exact Or.inr htr
      · exact absurd ⟨hta, htr⟩ (h t ht)
  · intro h t ht hcon
    rcases h t ht with h2 | h2
    · exact hcon.1 h2
    · exact hcon.2 h2

theorem blacklistUserTokens_lookup_self (st : RegistryState) (u : String) (a : Token)
    (r : Option Token) :
    (blacklistUserTokens st u a r).userTokens u =
      match st.userTokens u with
      | none => none
      | some ts =>
        if (rmTokens ts a r).length = 0 then none else some (rmTokens ts a r) := by
  cases r with
  | none =>
    show (removeUserToken (blacklistToken st a) u a).userTokens u = _
    cases hlook : st.userTokens u with
    | none =>
      have hl2 : (blacklistToken st a).userTokens u = none := hlook
      simp only [hlook]
      rw [removeUserToken_lookup_none _ _ _ hl2]
      exact hl2
    | some ts =>
      have hl2 : (blacklistToken st a).userTokens u = some ts := hlook
      simp only [hlook]
      rw [removeUserToken_lookup_self _ _ _ ts hl2]
      simp only [rmTokens, List.filter_true]
  | some rt =>
    show (removeUserToken (removeUserToken (blacklistToken (blacklistToken st a) rt) u a)
        u rt).userTokens u = _
    cases hlook : st.userTokens u with
    | none =>
      have hl2 : (blacklistToken (blacklistToken st a) rt).userTokens u = none := hlook
      simp only [hlook]
      rw [removeUserToken_lookup_none _ u a hl2, removeUserToken_lookup_none _ u rt hl2]
      exact hl2
    | some ts =>
      have hl2 : (blacklistToken (blacklistToken st a) rt).userTokens u = some ts := hlook
      have h3 := removeUserToken_lookup_self (blacklistToken (blacklistToken st a) rt) u a ts hl2
      simp only [hlook]
      by_cases hlen : (ts.filter fun x => x != a).length = 0
      · rw [if_pos hlen] at h3
        rw [removeUserToken_lookup_none _ u rt h3, h3]
        have hnil : ts.filter (fun x => x != a) = [] := List.length_eq_zero.mp hlen
        simp [rmTokens, hnil]
      · rw [if_neg hlen] at h3
        rw [removeUserToken_lookup_self _ u rt _ h3]
        simp only [rmTokens]

/-- C6: `blacklistUserTokens(u, a, r)` blacklists exactly `a` and (when
given) `r`, removes exactly them from `u`'s active-token set, deletes
`u`'s index entry exactly when that set empties, leaves every other
user's index entry and every other token's blacklist status unchanged —
so a different token still tracked for `u` that verified before the call
still verifies after it. -/
theorem blacklistUserTokens_scoped (st : RegistryState) (u : String) (a : Token)
    (r : Option Token) :
    isTokenBlacklisted (blacklistUserTokens st u a r) a = true
    ∧ (∀ rt, r = some rt → isTokenBlacklisted (blacklistUserTokens st u a r) rt = true)
    ∧ (∀ t, t ≠ a → r ≠ some t →
        isTokenBlacklisted (blacklistUserTokens st u a r) t = isTokenBlacklisted st t)
    ∧ (∀ u', u' ≠ u → (blacklistUserTokens st u a r).userTokens u' = st.userTokens u')
    ∧ (∀ ts', (blacklistUserTokens st u a r).userTokens u = some ts' →
        ∀ t, t ∈ ts' ↔ (∃ ts, st.userTokens u = some ts ∧ t ∈ ts) ∧ t ≠ a ∧ r ≠ some t)
    ∧ (∀ ts, st.userTokens u = some ts →
        ((blacklistUserTokens st u a r).userTokens u = none ↔ ∀ t ∈ ts, t = a ∨ r = some t))
    ∧ (st.userTokens u = none → (blacklistUserTokens st u a r).userTokens u = none)
    ∧ (∀ t now p, t ≠ a → r ≠ some t → verifyAccessToken st t now = Except.ok p →
        verifyAccessToken (blacklistUserTokens st u a r) t now = Except.ok p) := by
  have hbl := blacklistUserTokens_blacklisted st u a r
  refine ⟨?_, ?_, ?_, fun u' h => blacklistUserTokens_lookup_other st u a r u' h,
    ?_, ?_, ?_, ?_⟩
  · rw [isTokenBlacklisted, hbl]
    simp
  · intro rt hrt
    subst hrt
    rw [isTokenBlacklisted, hbl]
    simp
  · intro t hta htr
    rw [isTokenBlacklisted, isTokenBlacklisted, hbl, if_neg]
    rintro (h1 | h2)
    · exact hta h1
    · exact htr h2
  · intro ts' hts' t
    rw [blacklistUserTokens_lookup_self] at hts'
    cases hlook : st.userTokens u with
    | none =>
      simp only [hlook] at hts'
      cases hts'
    | some ts =>
      simp only [hlook] at hts'
      by_cases hlen : (rmTokens ts a r).length = 0
      · rw [if_pos hlen] at hts'
        cases hts'
      · rw [if_neg hlen] at hts'
        injection hts' with hts2
        subst hts2
        rw [mem_rmTokens]
        simp [hlook]
  · intro ts hts
    rw [blacklistUserTokens_lookup_self]
    simp only [hts]
    by_cases hlen : (rmTokens ts a r).length = 0
    · rw [if_pos hlen]
      exact ⟨fun _ => (rmTokens_nil_iff ts a r).mp (List.length_eq_zero.mp hlen),
        fun _ => rfl⟩
    · rw [if_neg hlen]
      constructor
      · intro hcon
        cases hcon
      · intro hall
        have hnil := (rmTokens_nil_iff ts a r).mpr hall
        have hz : (rmTokens ts a r).length = 0 := by rw [hnil]; rfl
        exact absurd hz hlen
  · intro h
    rw [blacklistUserTokens_lookup_self]
    simp [h]
  · intro t now p hta htr hok
    rw [verifyAccessToken_congr (blacklistUserTokens st u a r) st t now ?_]
    · exact hok
    · rw [hbl, if_neg]
      rintro (h1 | h2)
      · exact hta h1
      · exact htr h2

/-- Witness for C6: logging out u1's first-session pair leaves the
second-session access token verifying successfully. -/
theorem blacklistUserTokens_scoped_witness :
    tAcc2 ≠ tAcc
    ∧ (some tRef : Option Token) ≠ some tAcc2
    ∧ verifyAccessToken stTwoSessions tAcc2 5 =
        Except.ok ⟨"u1", "a@b.com", none, "access"⟩
    ∧ verifyAccessToken (blacklistUserTokens stTwoSessions "u1" tAcc (some tRef)) tAcc2 5 =
        Except.ok ⟨"u1", "a@b.com", none, "access"⟩ :=
  ⟨by decide, by decide, by rfl,
    (blacklistUserTokens_scoped stTwoSessions "u1" tAcc (some tRef)).2.2.2.2.2.2.2
      tAcc2 5 ⟨"u1", "a@b.com", none, "access"⟩ (by decide) (by decide) (by rfl)⟩

/-- Counterexample to C7 as stated: when a token tracked for u1 is also
tracked for u2, `blacklistAllUserTokens "u1"` changes the blacklist
status of a token belonging to u2 — u2's index entry still holds the
token, but that token is now blacklisted. -/
theorem blacklistAllUserTokens_other_user_cex :
    stShared.userTokens "u2" = some [tShared]
    ∧ isTokenBlacklisted stShared tShared = false
    ∧ (blacklistAllUserTokens stShared "u1").userTokens "u2" = some [tShared]
    ∧ isTokenBlacklisted (blacklistAllUserTokens stShared "u1") tShared = true :=
  ⟨by decide, by decide, by decide, by decide⟩

/-- C7 (amended): after `blacklistAllUserTokens(u)` every token that was
tracked in `u`'s index entry is blacklisted, `u`'s entry is removed
entirely, every *index entry* of every other user is unchanged, and the
blacklist status of every token not tracked in `u`'s entry is unchanged.
(The original claim's stronger reading — that the blacklist status of
other users' tokens never changes — fails exactly when a token of `u` is
also tracked for another user, as the counterexample shows.) -/
theorem blacklistAllUserTokens_scoped (st : RegistryState) (u : String) :
    (∀ ts, st.userTokens u = some ts → ∀ t ∈ ts,
        isTokenBlacklisted (blacklistAllUserTokens st u) t = true)
    ∧ (blacklistAllUserTokens st u).userTokens u = none
    ∧ (∀ u', u' ≠ u → (blacklistAllUserTokens st u).userTokens u' = st.userTokens u')
    ∧ (∀ t, (∀ ts, st.userTokens u = some ts → t ∉ ts) →
        isTokenBlacklisted (blacklistAllUserTokens st u) t = isTokenBlacklisted st t) := by
  refine ⟨?_, blacklistAllUserTokens_lookup_self st u,
    fun u' h => blacklistAllUserTokens_lookup_other st u u' h, ?_⟩
  · intro ts hts t ht
    rw [isTokenBlacklisted, blacklistAllUserTokens_blacklisted]
    simp [hts, ht]
  · intro t hnt
    rw [isTokenBlacklisted, isTokenBlacklisted, blacklistAllUserTokens_blacklisted]
    cases hts : st.userTokens u with
    | none => rfl
    | some ts => simp [hnt ts hts]

/-- Witness for C7 (amended): blacklisting all of u1's tokens in the
two-user registry blacklists the token tracked for u1. -/
theorem blacklistAllUserTokens_scoped_witness :
    stShared.userTokens "u1" = some [tShared]
    ∧ tShared ∈ [tShared]
    ∧ isTokenBlacklisted (blacklistAllUserTokens stShared "u1") tShared = true :=
  ⟨by decide, by decide,
    (blacklistAllUserTokens_scoped stShared "u1").1 [tShared] (by decide) tShared
      (by decide)⟩

/-- Counterexample to C4 as stated: the state reached from the empty
registry by `addUserToken "u1" tG; blacklistToken tG` — two of the
operations the claim lists — has `tG` both tracked in u1's index entry
and present in the blacklist: `blacklistToken` alone never removes a
token from the index. -/
theorem index_blacklist_invariant_cex :
    stBad.userTokens "u1" = some [tG] ∧ isTokenBlacklisted stBad tG = true :=
  ⟨by decide, by decide⟩

theorem addUserToken_mem (st : RegistryState) (u : String) (t : Token) (u' : String)
    (ts' : List Token) (t' : Token) (hl : (addUserToken st u t).userTokens u' = some ts')
    (hm : t' ∈ ts') :
    (∃ ts0, st.userTokens u' = some ts0 ∧ t' ∈ ts0) ∨ (u' = u ∧ t' = t) := by
  rw [addUserToken_lookup] at hl
  by_cases hu : u' = u
  · rw [if_pos hu] at hl
    injection hl with hl2
    subst hl2
    subst hu
    by_cases hin : t ∈ (st.userTokens u').getD []
    · rw [if_pos hin] at hm
      cases hl0 : st.userTokens u' with
      | none => simp [hl0] at hm
      | some ts0 => exact Or.inl ⟨ts0, rfl, by simpa [hl0] using hm⟩
    · rw [if_neg hin] at hm
      rcases List.mem_append.mp hm with hmm | hmm
      · cases hl0 : st.userTokens u' with
        | none => simp [hl0] at hmm
        | some ts0 => exact Or.inl ⟨ts0, rfl, by simpa [hl0] using hmm⟩
      · exact Or.inr ⟨rfl, by simpa using hmm⟩
  · rw [if_neg hu] at hl
    exact Or.inl ⟨ts', hl, hm⟩

/-- The inductive invariant: along `SafeReachable` histories, every indexed
token is non-blacklisted and is indexed only under its issuing user. -/
theorem safeReachable_inv (st : RegistryState) (h : SafeReachable st) :
    (∀ u ts t, st.userTokens u = some ts → t ∈ ts → st.blacklistedTokens t = false)
    ∧ (∀ u ts t, st.userTokens u = some ts → t ∈ ts → tokenOwner t = some u) := by
  induction h with
  | empty =>
    constructor <;> intro u ts t hl hm <;> cases hl
  | pair st c now h ha hr ih =>
    obtain ⟨ihA, ihO⟩ := ih
    have hmem : ∀ u' ts' t', (generateTokenPair st c now).1.userTokens u' = some ts' →
        t' ∈ ts' →
        (∃ ts0, st.userTokens u' = some ts0 ∧ t' ∈ ts0) ∨
          (u' = c.userId ∧
            (t' = generateAccessToken c now ∨ t' = generateRefreshToken c now)) := by
      intro u' ts' t' hl hm
      have hl2 : (addUserToken (addUserToken st c.userId (generateAccessToken c now))
          c.userId (generateRefreshToken c now)).userTokens u' = some ts' := hl
      rcases addUserToken_mem _ _ _ _ _ _ hl2 hm with ⟨ts1, hl1, hm1⟩ | ⟨hu, ht⟩
      · rcases addUserToken_mem _ _ _ _ _ _ hl1 hm1 with ⟨ts0, hl0, hm0⟩ | ⟨hu, ht⟩
        · exact Or.inl ⟨ts0, hl0, hm0⟩
        · exact Or.inr ⟨hu, Or.inl ht⟩
      · exact Or.inr ⟨hu, Or.inr ht⟩
    have hblack : (generateTokenPair st c now).1.blacklistedTokens = st.blacklistedTokens := rfl
    constructor
    · intro u ts t hl hm
      rw [hblack]
      rcases hmem u ts t hl hm with ⟨ts0, hl0, hm0⟩ | ⟨_, ht | ht⟩
      · exact ihA u ts0 t hl0 hm0
      · rw [ht]
        exact ha
      · rw [ht]
        exact hr
    · intro u ts t hl hm
      rcases hmem u ts t hl hm with ⟨ts0, hl0, hm0⟩ | ⟨hu, ht | ht⟩
      · exact ihO u ts0 t hl0 hm0
      · rw [ht, hu]
        rfl
      · rw [ht, hu]
        rfl
  | logout st u a r h hoa hor ih =>
    obtain ⟨ihA, ihO⟩ := ih
    have hmem : ∀ u' ts' t', (blacklistUserTokens st u a r).userTokens u' = some ts' →
        t' ∈ ts' →
        ∃ ts0, st.userTokens u' = some ts0 ∧ t' ∈ ts0 ∧
          (u' = u → t' ≠ a ∧ r ≠ some t') := by
      intro u' ts' t' hl hm
      by_cases hu : u' = u
      · subst hu
        rw [blacklistUserTokens_lookup_self] at hl
        cases hlook : st.userTokens u' with
        | none =>
          simp only [hlook] at hl
          cases hl
        | some ts0 =>
          simp only [hlook] at hl
          by_cases hlen : (rmTokens ts0 a r).length = 0
          · rw [if_pos hlen] at hl
            cases hl
          · rw [if_neg hlen] at hl
            injection hl with hl2
            subst hl2
            rcases (mem_rmTokens ts0 a r t').mp hm with ⟨hm0, hta, htr⟩
            exact ⟨ts0, rfl, hm0, fun _ => ⟨hta, htr⟩⟩
      · rw [blacklistUserTokens_lookup_other st u a r u' hu] at hl
        exact ⟨ts', hl, hm, fun hc => absurd hc hu⟩
    constructor
    · intro u' ts' t' hl hm
      obtain ⟨ts0, hl0, hm0, hcond⟩ := hmem u' ts' t' hl hm
      rw [blacklistUserTokens_blacklisted]
      have hno : ¬(t' = a ∨ r = some t') := by
        rintro (h1 | h2)
        · have ho := ihO u' ts0 t' hl0 hm0
          rw [h1, hoa] at ho
          injection ho with hu2
          exact (hcond hu2.symm).1 h1
        · have ho := ihO u' ts0 t' hl0 hm0
          rw [hor t' h2] at ho
          injection ho with hu2
          exact (hcond hu2.symm).2 h2
      rw [if_neg hno]
      exact ihA u' ts0 t' hl0 hm0
    · intro u' ts' t' hl hm
      obtain ⟨ts0, hl0, hm0, _⟩ := hmem u' ts' t' hl hm
      exact ihO u' ts0 t' hl0 hm0
  | logoutAll st u h ih =>
    obtain ⟨ihA, ihO⟩ := ih
    constructor
    · intro u' ts' t' hl hm
      by_cases hu : u' = u
      · rw [hu, blacklistAllUserTokens_lookup_self] at hl
        cases hl
      · rw [blacklistAllUserTokens_lookup_other st u u' hu] at hl
        rw [blacklistAllUserTokens_blacklisted]
        cases hlook : st.userTokens u with
        | none =>
          simp only [hlook]
          exact ihA u' ts' t' hl hm
        | some ts0 =>
          simp only [hlook]
          have hnot : t' ∉ ts0 := by
            intro hin
            have h1 := ihO u ts0 t' hlook hin
            have h2 := ihO u' ts' t' hl hm
            rw [h1] at h2
            injection h2 with h3
            exact hu h3.symm
          rw [if_neg hnot]
          exact ihA u' ts' t' hl hm
    · intro u' ts' t' hl hm
      by_cases hu : u' = u
      · rw [hu, blacklistAllUserTokens_lookup_self] at hl
        cases hl
      · rw [blacklistAllUserTokens_lookup_other st u u' hu] at hl
        exact ihO u' ts' t' hl hm

/-- C4 (amended): along every history of the façade's own call pattern —
`generateTokenPair` whose two freshly issued tokens are not currently
blacklisted, `blacklistUserTokens` applied to tokens owned by the named
user, and `blacklistAllUserTokens` — every token present in the
User→Tokens index of any user is absent from the blacklist.  (As stated
the claim is false: `blacklistToken` alone does not remove the token from
the index, and `addUserToken` does not consult the blacklist — see the
counterexample.) -/
theorem index_tokens_never_blacklisted (st : RegistryState) (h : SafeReachable st)
    (u : String) (ts : List Token) (t : Token) (hl : st.userTokens u = some ts)
    (hm : t ∈ ts) : isTokenBlacklisted st t = false :=
  (safeReachable_inv st h).1 u ts t hl hm

/-- Witness for C4 (amended): in the state reached by one fresh
`generateTokenPair` from empty, the indexed access token is not
blacklisted. -/
theorem index_tokens_never_blacklisted_witness :
    (generateTokenPair emptyRegistry c0 0).1.userTokens "u1" = some [tAcc, tRef]
    ∧ tAcc ∈ [tAcc, tRef]
    ∧ isTokenBlacklisted (generateTokenPair emptyRegistry c0 0).1 tAcc = false :=
  ⟨by decide, by decide,
    index_tokens_never_blacklisted (generateTokenPair emptyRegistry c0 0).1
      (SafeReachable.pair emptyRegistry c0 0 SafeReachable.empty rfl rfl)
      "u1" [tAcc, tRef] tAcc (by decide) (by decide)⟩

theorem verifyPassword_hash_ok (K : KDF) (P : String) (s : List Nat)
    (hs : s.length = 16) (hb : ∀ b ∈ s, b < 256) :
    verifyPassword K P (hashPassword K s P) = Except.ok true := by
  have hlen : (s ++ K.derive P s).length % 3 = 0 := by
    rw [List.length_append, hs, K.derive_len]
  have hbytes : ∀ b ∈ s ++ K.derive P s, b < 256 := by
    intro b hbm
    rcases List.mem_append.mp hbm with hh | hh
    · exact hb b hh
    · exact K.derive_lt P s b hh
  have hrt : atobChars (String.mk (btoaBytes (s ++ K.derive P s))).data =
      some (s ++ K.derive P s) := atobChars_btoaBytes _ hbytes hlen
  unfold verifyPassword verifyPasswordTry hashPassword btoa
  simp only [hrt]
  rw [List.take_left' hs, List.drop_left' hs]
  rw [if_neg (by simp)]
  rw [cmpBytes_refl]

/-- C2: hashing the same password with two distinct random 16-byte salts
yields unequal encoded strings, yet `verifyPassword` accepts the password
against both resulting hashes. -/
theorem hash_salt_nondeterminism (K : KDF) (P : String) (s1 s2 : List Nat)
    (h1 : s1.length = 16) (h2 : s2.length = 16)
    (hb1 : ∀ b ∈ s1, b < 256) (hb2 : ∀ b ∈ s2, b < 256) (hne : s1 ≠ s2) :
    hashPassword K s1 P ≠ hashPassword K s2 P
    ∧ verifyPassword K P (hashPassword K s1 P) = Except.ok true
    ∧ verifyPassword K P (hashPassword K s2 P) = Except.ok true := by
  refine ⟨?_, verifyPassword_hash_ok K P s1 h1 hb1, verifyPassword_hash_ok K P s2 h2 hb2⟩
  intro heq
  unfold hashPassword btoa at heq
  have hdata : btoaBytes (s1 ++ K.derive P s1) = btoaBytes (s2 ++ K.derive P s2) := by
    injection heq
  have e1 := atobChars_btoaBytes (s1 ++ K.derive P s1)
    (fun b hbm => (List.mem_append.mp hbm).elim (hb1 b) (K.derive_lt P s1 b))
    (by rw [List.length_append, h1, K.derive_len])
  have e2 := atobChars_btoaBytes (s2 ++ K.derive P s2)
    (fun b hbm => (List.mem_append.mp hbm).elim (hb2 b) (K.derive_lt P s2 b))
    (by rw [List.length_append, h2, K.derive_len])
  rw [hdata, e2] at e1
  injection e1 with e3
  have e4 := List.append_inj_left e3 (by rw [h2, h1])
  exact hne e4.symm

/-- Witness for C2 at the concrete derivation function `kdf0` and two
concrete distinct salts. -/
theorem hash_salt_nondeterminism_witness :
    salt0.length = 16 ∧ salt1.length = 16
    ∧ (∀ b ∈ salt0, b < 256) ∧ (∀ b ∈ salt1, b < 256)
    ∧ salt0 ≠ salt1
    ∧ hashPassword kdf0 salt0 "pw" ≠ hashPassword kdf0 salt1 "pw"
    ∧ verifyPassword kdf0 "pw" (hashPassword kdf0 salt0 "pw") = Except.ok true :=
  ⟨by decide, by decide, by decide, by decide, by decide,
    (hash_salt_nondeterminism kdf0 "pw" salt0 salt1 (by decide) (by decide)
      (by decide) (by decide) (by decide)).1,
    (hash_salt_nondeterminism kdf0 "pw" salt0 salt1 (by decide) (by decide)
      (by decide) (by decide) (by decide)).2.1⟩

/-- C9: `verifyPassword` never lets an exception escape to the caller: on
every password and stored-hash string it returns a boolean, and when the
stored hash does not even base64-decode it returns `false`. -/
theorem verifyPassword_never_throws (K : KDF) (p h : String) :
    (∃ b, verifyPassword K p h = Except.ok b)
    ∧ (atobChars h.data = none → verifyPassword K p h = Except.ok false) := by
  cases hdec : atobChars h.data with
  | none =>
    refine ⟨⟨false, ?_⟩, fun _ => ?_⟩ <;>
      simp [verifyPassword, verifyPasswordTry, hdec]
  | some combined =>
    refine ⟨?_, fun hnone => ?_⟩
    · by_cases hl : combined.length - 16 = (K.derive p (combined.take 16)).length
      · exact ⟨cmpBytes (combined.drop 16) (K.derive p (combined.take 16)),
          by simp [verifyPassword, verifyPasswordTry, hdec, hl]⟩
      · exact ⟨false, by simp [verifyPassword, verifyPasswordTry, hdec, hl]⟩
    · cases hnone

/-- Witness for C9: an input that is not valid base64 makes the decode
fail, and `verifyPassword` returns `false` instead of propagating. -/
theorem verifyPassword_never_throws_witness :
    atobChars (String.mk ['@', '@', '@']).data = none
    ∧ verifyPassword kdf0 "pw" (String.mk ['@', '@', '@']) = Except.ok false :=
  ⟨by decide,
    (verifyPassword_never_throws kdf0 "pw" (String.mk ['@', '@', '@'])).2 (by decide)⟩

/-- C10: a stored hash whose decoded byte length is not exactly 48 makes
`verifyPassword` return `false` for every password and derivation
function, because the stored key slice cannot match the 32-byte
re-derived key's length. -/
theorem verifyPassword_bad_length_false (K : KDF) (p h : String) (bs : List Nat)
    (hdec : atobChars h.data = some bs) (hlen : bs.length ≠ 48) :
    verifyPassword K p h = Except.ok false := by
  have hd : ¬(bs.length - 16 = (K.derive p (bs.take 16)).length) := by
    rw [K.derive_len]
    omega
  simp [verifyPassword, verifyPasswordTry, hdec, hd]

/-- Witness for C10: the 4-character hash decoding to 3 bytes is rejected. -/
theorem verifyPassword_bad_length_false_witness :
    atobChars (String.mk ['A', 'A', 'A', 'A']).data = some [0, 0, 0]
    ∧ ([0, 0, 0] : List Nat).length ≠ 48
    ∧ verifyPassword kdf0 "pw" (String.mk ['A', 'A', 'A', 'A']) = Except.ok false :=
  ⟨by decide, by decide,
    verifyPassword_bad_length_false kdf0 "pw" (String.mk ['A', 'A', 'A', 'A'])
      [0, 0, 0] (by decide) (by decide)⟩
